import Mathlib

/- Verification of the cart and order logic of the devliver-factory backend.
   Monetary amounts are modelled as rationals; the JS pattern
   parseFloat(x.toFixed(2)) is modelled as rounding half-up to two decimal
   places, which is how the specification describes it.  Fallible methods
   (the JS methods that throw, and the handlers that answer 400) are
   modelled with Except; an error result corresponds to the JS method
   throwing before any mutation, so the stored cart is unchanged. -/

namespace Devliver

/-- Rounding to two decimal places, half-up: models parseFloat(x.toFixed(2)). -/
def round2 (x : ℚ) : ℚ := ((round (x * 100) : ℤ) : ℚ) / 100

/-- Catalog product: the fields that addItem reads (src/src/models/Product.js). -/
structure Product where
  _id : String
  name : String
  price : ℚ
  discountPercentage : ℚ
  image : String
  deriving DecidableEq

/-- Virtual discountedPrice of Product.js: price times (1 - discountPercentage / 100). -/
def Product.discountedPrice (p : Product) : ℚ :=
  p.price * (1 - p.discountPercentage / 100)

/-- One cart line item (cartItemSchema in the cart model file). -/
structure CartItem where
  product : String
  name : String
  price : ℚ
  discountedPrice : ℚ
  quantity : ℤ
  image : String
  deriving DecidableEq

/-- The cart document: items plus the derived totals and coupon fields. -/
structure Cart where
  items : List CartItem
  subtotal : ℚ
  tax : ℚ
  shippingCost : ℚ
  total : ℚ
  couponCode : Option String
  couponDiscount : ℚ
  deriving DecidableEq

/-- The error thrown by updateItemQuantity and removeItem
    (the JS string is Item not found in cart; the router maps it to 404). -/
inductive CartError where
  | itemNotFound
  deriving DecidableEq

/-- The 400 answer of the apply-coupon handler for an unknown code. -/
inductive CouponError where
  | invalidCoupon
  deriving DecidableEq

/-- JS Array.prototype.findIndex on the item list, with the -1 result of JS
    rendered as none and an index i greater than -1 rendered as some i. -/
def findIdx (f : CartItem → Bool) : List CartItem → Option Nat
  | [] => none
  | item :: rest => if f item then some 0 else (findIdx f rest).map (· + 1)

/-- In-place update of the element at one index, as JS assignment to
    this.items[i] does. -/
def modifyAt (f : CartItem → CartItem) : List CartItem → Nat → List CartItem
  | [], _ => []
  | item :: rest, 0 => f item :: rest
  | item :: rest, n + 1 => item :: modifyAt f rest n

/-- JS a || b on numbers (no NaN in our model): a when nonzero, else b. -/
def jsNumOr (a b : ℚ) : ℚ := if a = 0 then b else a

def TAX_RATE : ℚ := 8 / 100

def SHIPPING_THRESHOLD : ℚ := 50

def BASE_SHIPPING : ℚ := 599 / 100

/-- The reduce over this.items that starts the totals calculation. -/
def itemsSubtotal (items : List CartItem) : ℚ :=
  items.foldl (fun sum item => sum + item.discountedPrice * (item.quantity : ℚ)) 0

/-- cartSchema.methods.calculateTotals, line for line: rounded subtotal, then
    shipping by strict comparison with the threshold, then rounded tax, then
    rounded total minus the coupon discount. -/
def calculateTotals (c : Cart) : Cart :=
  let subtotal := round2 (itemsSubtotal c.items)
  let shippingCost : ℚ := if subtotal > SHIPPING_THRESHOLD then 0 else BASE_SHIPPING
  let tax := round2 (subtotal * TAX_RATE)
  let total := round2 (subtotal + tax + shippingCost - c.couponDiscount)
  { c with subtotal := subtotal, shippingCost := shippingCost, tax := tax, total := total }

/-- cartSchema.methods.addItem: merge into an existing line item for the same
    product, or push a fresh snapshot of the product, then recompute totals. -/
def addItem (c : Cart) (productData : Product) (quantity : ℤ) : Cart :=
  match findIdx (fun item => item.product == productData._id) c.items with
  | some i =>
      calculateTotals
        { c with items := modifyAt (fun item => { item with quantity := item.quantity + quantity }) c.items i }
  | none =>
      calculateTotals
        { c with items := c.items ++ [{
            product := productData._id
            name := productData.name
            price := productData.price
            discountedPrice := jsNumOr productData.discountedPrice productData.price
            quantity := quantity
            image := productData.image }] }

/-- cartSchema.methods.updateItemQuantity: throw when the product is absent,
    splice the item out when the quantity is not positive, otherwise overwrite
    the quantity, then recompute totals. -/
def updateItemQuantity (c : Cart) (productId : String) (quantity : ℤ) : Except CartError Cart :=
  match findIdx (fun item => item.product == productId) c.items with
  | none => Except.error CartError.itemNotFound
  | some i =>
      if quantity ≤ 0 then
        Except.ok (calculateTotals { c with items := c.items.eraseIdx i })
      else
        Except.ok (calculateTotals
          { c with items := modifyAt (fun item => { item with quantity := quantity }) c.items i })

/-- cartSchema.methods.removeItem: throw when the product is absent, otherwise
    splice the item out and recompute totals. -/
def removeItem (c : Cart) (productId : String) : Except CartError Cart :=
  match findIdx (fun item => item.product == productId) c.items with
  | none => Except.error CartError.itemNotFound
  | some i => Except.ok (calculateTotals { c with items := c.items.eraseIdx i })

/-- cartSchema.methods.clearCart: empty the items and zero every derived field
    directly, with no call to calculateTotals. -/
def clearCart (c : Cart) : Cart :=
  { c with items := [], subtotal := 0, tax := 0, shippingCost := 0, total := 0,
           couponCode := none, couponDiscount := 0 }

def WELCOME10 : String := "WELCOME10"

def FREESHIP : String := "FREESHIP"

/-- The apply-coupon route handler: WELCOME10 stores a rounded tenth of the
    stored subtotal, FREESHIP stores the stored shipping cost, anything else
    is rejected with 400 before touching the cart; on success the handler
    then calls calculateTotals. -/
def applyCoupon (c : Cart) (couponCode : String) : Except CouponError Cart :=
  if couponCode = WELCOME10 then
    Except.ok (calculateTotals
      { c with couponCode := some couponCode,
               couponDiscount := round2 (c.subtotal * (1 / 10)) })
  else if couponCode = FREESHIP then
    Except.ok (calculateTotals
      { c with couponCode := some couponCode, couponDiscount := c.shippingCost })
  else
    Except.error CouponError.invalidCoupon

/-- The remove-coupon route handler: clear the code, zero the discount,
    recompute totals. -/
def removeCoupon (c : Cart) : Cart :=
  calculateTotals { c with couponCode := none, couponDiscount := 0 }

/-- Order status enum of Order.js. -/
inductive OrderStatus where
  | Processing
  | InTransit
  | Delivered
  | Cancelled
  deriving DecidableEq

/-- The order fields the cancel handler can read or write. -/
structure Order where
  userId : String
  status : OrderStatus
  trackingNumber : Option String
  deriving DecidableEq

/-- The 400 answer of the cancel handler for a delivered order. -/
inductive CancelError where
  | cannotCancelDelivered
  deriving DecidableEq

/-- The cancel route handler after the ownership check: refuse a Delivered
    order with 400, otherwise set the status to Cancelled. -/
def cancelOrder (o : Order) : Except CancelError Order :=
  if o.status = OrderStatus.Delivered then
    Except.error CancelError.cannotCancelDelivered
  else
    Except.ok { o with status := OrderStatus.Cancelled }

/-- A cart whose items sum to exactly 50.00. -/
def cartSubtotal50 : Cart :=
  { items := [{ product := "a", name := "A", price := 25, discountedPrice := 25,
                quantity := 2, image := "" }],
    subtotal := 0, tax := 0, shippingCost := 0, total := 0,
    couponCode := none, couponDiscount := 0 }

/-- A cart whose items sum to exactly 60.00. -/
def cartSubtotal60 : Cart :=
  { items := [{ product := "a", name := "A", price := 30, discountedPrice := 30,
                quantity := 2, image := "" }],
    subtotal := 0, tax := 0, shippingCost := 0, total := 0,
    couponCode := none, couponDiscount := 0 }

/-- The totals invariant the specification states: the stored total is the
    rounded combination of the stored components, and the stored subtotal and
    tax are themselves already-rounded values. -/
def totalsInvariant (c : Cart) : Prop :=
  c.total = round2 (c.subtotal + c.tax + c.shippingCost - c.couponDiscount) ∧
  c.subtotal = round2 c.subtotal ∧
  c.tax = round2 c.tax

/-- Lift of the totals invariant over a fallible operation: an error result
    corresponds to a thrown exception, which leaves the stored cart as it was. -/
def okInvariant {ε : Type} : Except ε Cart → Prop
  | Except.error _ => True
  | Except.ok c => totalsInvariant c

theorem round2_idem (x : ℚ) : round2 (round2 x) = round2 x := by
  unfold round2
  rw [div_mul_cancel₀ _ (by norm_num : (100 : ℚ) ≠ 0), round_intCast]

theorem round2_zero : round2 0 = 0 := by
  simp [round2]

theorem round2_intCast (n : ℤ) : round2 (n : ℚ) = (n : ℚ) := by
  unfold round2
  rw [show ((n : ℚ) * 100) = ((n * 100 : ℤ) : ℚ) by push_cast; ring, round_intCast]
  push_cast
  exact mul_div_cancel_right₀ _ (by norm_num)

theorem round2_int_div (n : ℤ) : round2 ((n : ℚ) / 100) = (n : ℚ) / 100 := by
  unfold round2
  rw [div_mul_cancel₀ _ (by norm_num : (100 : ℚ) ≠ 0), round_intCast]

theorem round2_base_shipping : round2 BASE_SHIPPING = BASE_SHIPPING := by
  have h := round2_int_div 599
  push_cast at h
  simpa [BASE_SHIPPING] using h

theorem calculateTotals_items (c : Cart) : (calculateTotals c).items = c.items := rfl

theorem calculateTotals_couponDiscount (c : Cart) :
    (calculateTotals c).couponDiscount = c.couponDiscount := rfl

theorem calculateTotals_couponCode (c : Cart) :
    (calculateTotals c).couponCode = c.couponCode := rfl

theorem totalsInvariant_calculateTotals (c : Cart) : totalsInvariant (calculateTotals c) :=
  ⟨rfl, (round2_idem _).symm, (round2_idem _).symm⟩

theorem totalsInvariant_clearCart (c : Cart) : totalsInvariant (clearCart c) := by
  refine ⟨?_, ?_, ?_⟩ <;> simp [clearCart, round2_zero]

theorem findIdx_eq_none (f : CartItem → Bool) :
    ∀ l : List CartItem, (∀ x ∈ l, f x = false) → findIdx f l = none := by
  intro l
  induction l with
  | nil => intro _; rfl
  | cons a t ih =>
      intro h
      have ha : f a = false := h a (List.mem_cons_self a t)
      have ht : findIdx f t = none := ih fun x hx => h x (List.mem_cons_of_mem a hx)
      simp [findIdx, ha, ht]

theorem findIdx_append_singleton (f : CartItem → Bool) :
    ∀ l : List CartItem, ∀ a : CartItem, (∀ x ∈ l, f x = false) → f a = true →
      findIdx f (l ++ [a]) = some l.length := by
  intro l
  induction l with
  | nil => intro a _ ha; simp [findIdx, ha]
  | cons b t ih =>
      intro a h ha
      have hb : f b = false := h b (List.mem_cons_self b t)
      have ht := ih a (fun x hx => h x (List.mem_cons_of_mem b hx)) ha
      simp [findIdx, hb, ht]

theorem modifyAt_append_length (f : CartItem → CartItem) :
    ∀ l : List CartItem, ∀ a : CartItem, modifyAt f (l ++ [a]) l.length = l ++ [f a] := by
  intro l
  induction l with
  | nil => intro a; rfl
  | cons b t ih => intro a; simp [modifyAt, ih a]

theorem modifyAt_eq_set (f : CartItem → CartItem) :
    ∀ l : List CartItem, ∀ i : Nat, ∀ x : CartItem,
      l[i]? = some x → modifyAt f l i = l.set i (f x) := by
  intro l
  induction l with
  | nil => intro i x h; simp at h
  | cons b t ih =>
      intro i x h
      cases i with
      | zero =>
          simp only [List.getElem?_cons_zero, Option.some.injEq] at h
          subst h
          rfl
      | succ n =>
          simp only [List.getElem?_cons_succ] at h
          simp [modifyAt, List.set, ih n x h]

/-- Claim C1: after every mutating cart operation (addItem, updateItemQuantity,
    removeItem, clearCart, applyCoupon, removeCoupon) the stored total equals
    the rounded value of subtotal plus tax plus shippingCost minus
    couponDiscount, with the stored subtotal and tax themselves independently
    rounded values; totals are never left stale. -/
theorem C1_totals_never_stale (c : Cart) (p : Product) (q qty : ℤ) (pid code : String) :
    totalsInvariant (addItem c p q) ∧
    okInvariant (updateItemQuantity c pid qty) ∧
    okInvariant (removeItem c pid) ∧
    totalsInvariant (clearCart c) ∧
    okInvariant (applyCoupon c code) ∧
    totalsInvariant (removeCoupon c) := by
  refine ⟨?_, ?_, ?_, totalsInvariant_clearCart c, ?_, ?_⟩
  · unfold addItem
    cases findIdx (fun item => item.product == p._id) c.items <;>
      exact totalsInvariant_calculateTotals _
  · unfold updateItemQuantity
    cases findIdx (fun item => item.product == pid) c.items with
    | none => trivial
    | some i =>
        dsimp only
        by_cases hq : qty ≤ 0
        · rw [if_pos hq]; exact totalsInvariant_calculateTotals _
        · rw [if_neg hq]; exact totalsInvariant_calculateTotals _
  · unfold removeItem
    cases findIdx (fun item => item.product == pid) c.items with
    | none => trivial
    | some i => exact totalsInvariant_calculateTotals _
  · unfold applyCoupon
    by_cases h1 : code = WELCOME10
    · rw [if_pos h1]; exact totalsInvariant_calculateTotals _
    · rw [if_neg h1]
      by_cases h2 : code = FREESHIP
      · rw [if_pos h2]; exact totalsInvariant_calculateTotals _
      · rw [if_neg h2]; trivial
  · exact totalsInvariant_calculateTotals _

/-- Claim C2: calculateTotals computes, in order, the rounded item subtotal,
    a shipping cost that is zero only for a subtotal strictly above 50 (a
    subtotal of exactly 50.00 still pays 5.99, of 60.00 pays nothing), the
    rounded 8 percent tax on the rounded subtotal, and the rounded grand
    total minus the coupon discount; rounding is half-up to two decimals and
    applied independently at each step. -/
theorem C2_calculateTotals_formula (c : Cart) :
    (calculateTotals c).subtotal = round2 (itemsSubtotal c.items) ∧
    (calculateTotals c).shippingCost =
      (if (calculateTotals c).subtotal > 50 then 0 else 599 / 100) ∧
    (calculateTotals c).tax = round2 ((calculateTotals c).subtotal * (8 / 100)) ∧
    (calculateTotals c).total =
      round2 ((calculateTotals c).subtotal + (calculateTotals c).tax +
        (calculateTotals c).shippingCost - (calculateTotals c).couponDiscount) ∧
    (∀ x : ℚ, round2 x = ((⌊x * 100 + 1 / 2⌋ : ℤ) : ℚ) / 100) ∧
    (calculateTotals cartSubtotal50).shippingCost = 599 / 100 ∧
    (calculateTotals cartSubtotal60).shippingCost = 0 := by
  have h50 : itemsSubtotal cartSubtotal50.items = 50 := by
    norm_num [cartSubtotal50, itemsSubtotal]
  have h60 : itemsSubtotal cartSubtotal60.items = 60 := by
    norm_num [cartSubtotal60, itemsSubtotal]
  have hr50 : round2 (50 : ℚ) = 50 := by
    have h := round2_intCast 50; push_cast at h; exact h
  have hr60 : round2 (60 : ℚ) = 60 := by
    have h := round2_intCast 60; push_cast at h; exact h
  refine ⟨rfl, rfl, rfl, rfl, ?_, ?_, ?_⟩
  · intro x
    rw [round2, round_eq]
  · show (if round2 (itemsSubtotal cartSubtotal50.items) > SHIPPING_THRESHOLD
        then (0 : ℚ) else BASE_SHIPPING) = 599 / 100
    rw [h50, hr50]
    norm_num [SHIPPING_THRESHOLD, BASE_SHIPPING]
  · show (if round2 (itemsSubtotal cartSubtotal60.items) > SHIPPING_THRESHOLD
        then (0 : ℚ) else BASE_SHIPPING) = 0
    rw [h60, hr60]
    norm_num [SHIPPING_THRESHOLD]

theorem addItem_items_push (c : Cart) (p : Product) (q : ℤ)
    (h : findIdx (fun item => item.product == p._id) c.items = none) :
    (addItem c p q).items = c.items ++
      [{ product := p._id, name := p.name, price := p.price,
         discountedPrice := jsNumOr p.discountedPrice p.price,
         quantity := q, image := p.image }] := by
  unfold addItem
  rw [h]
  rfl

theorem addItem_items_merge (c : Cart) (p : Product) (q : ℤ) (i : Nat)
    (h : findIdx (fun item => item.product == p._id) c.items = some i) :
    (addItem c p q).items =
      modifyAt (fun item => { item with quantity := item.quantity + q }) c.items i := by
  unfold addItem
  rw [h]
  rfl

theorem filter_eq_nil_of_false (f : CartItem → Bool) :
    ∀ l : List CartItem, (∀ x ∈ l, f x = false) → l.filter f = [] := by
  intro l
  induction l with
  | nil => intro _; rfl
  | cons a t ih =>
      intro h
      have ha : f a = false := h a (List.mem_cons_self a t)
      rw [List.filter_cons_of_neg (by simp [ha])]
      exact ih fun x hx => h x (List.mem_cons_of_mem a hx)

theorem bool_pred_false_of_ne (pid : String) (x : CartItem) (h : x.product ≠ pid) :
    (fun item => item.product == pid) x = false := by
  simpa using h

/-- Claim C3: adding a product with quantity q1 and then adding the same
    product again with quantity q2 leaves exactly one line item for that
    product, with quantity q1 + q2 and with the name, price and discounted
    price snapshot captured at the first insertion, even when the product
    record presented at the second call differs. -/
theorem C3_addItem_merges_with_first_snapshot (c : Cart) (p p2 : Product) (q1 q2 : ℤ)
    (hid : p2._id = p._id)
    (habs : ∀ item ∈ c.items, item.product ≠ p._id) :
    (addItem (addItem c p q1) p2 q2).items.filter (fun item => item.product == p._id) =
      [{ product := p._id, name := p.name, price := p.price,
         discountedPrice := jsNumOr p.discountedPrice p.price,
         quantity := q1 + q2, image := p.image }] := by
  have hfalse : ∀ x ∈ c.items, (fun item => item.product == p._id) x = false :=
    fun x hx => bool_pred_false_of_ne p._id x (habs x hx)
  have h1 : findIdx (fun item => item.product == p._id) c.items = none :=
    findIdx_eq_none _ c.items hfalse
  have hadd1 := addItem_items_push c p q1 h1
  have hfid2 : findIdx (fun item => item.product == p2._id) (addItem c p q1).items
      = some c.items.length := by
    rw [hid, hadd1]
    exact findIdx_append_singleton _ c.items _ hfalse (by simp)
  have hadd2 := addItem_items_merge (addItem c p q1) p2 q2 c.items.length hfid2
  rw [hadd2, hadd1, modifyAt_append_length, List.filter_append]
  rw [filter_eq_nil_of_false _ c.items hfalse]
  simp

/-- Claim C4: when the cart holds a line item for the product, updating with
    a non-positive quantity deletes that line item and updating with a
    positive quantity overwrites its quantity with exactly the given value,
    and the totals are recomputed from the new item list in both cases. -/
theorem C4_updateItemQuantity_sets_or_deletes (c : Cart) (pid : String) (q : ℤ)
    (i : Nat) (it : CartItem)
    (hfind : findIdx (fun item => item.product == pid) c.items = some i)
    (hget : c.items[i]? = some it) :
    ∃ c2, updateItemQuantity c pid q = Except.ok c2 ∧
      c2.items = (if q ≤ 0 then c.items.eraseIdx i
                  else c.items.set i { it with quantity := q }) ∧
      totalsInvariant c2 ∧
      c2.subtotal = round2 (itemsSubtotal c2.items) := by
  unfold updateItemQuantity
  rw [hfind]
  dsimp only
  by_cases hq : q ≤ 0
  · rw [if_pos hq, if_pos hq]
    exact ⟨_, rfl, calculateTotals_items _, totalsInvariant_calculateTotals _, rfl⟩
  · rw [if_neg hq, if_neg hq]
    refine ⟨_, rfl, ?_, totalsInvariant_calculateTotals _, rfl⟩
    rw [calculateTotals_items]
    exact modifyAt_eq_set _ c.items i it hget

/-- Claim C5: when no line item of the cart references the product identifier,
    removeItem and updateItemQuantity both fail with the item-not-found error;
    the JS methods throw before touching any field, so the stored cart, its
    totals and its coupon fields are left unchanged. -/
theorem C5_absent_product_errors (c : Cart) (pid : String) (q : ℤ)
    (habs : ∀ item ∈ c.items, item.product ≠ pid) :
    removeItem c pid = Except.error CartError.itemNotFound ∧
    updateItemQuantity c pid q = Except.error CartError.itemNotFound := by
  have hfalse : ∀ x ∈ c.items, (fun item => item.product == pid) x = false :=
    fun x hx => bool_pred_false_of_ne pid x (habs x hx)
  have h := findIdx_eq_none _ c.items hfalse
  constructor
  · unfold removeItem; rw [h]
  · unfold updateItemQuantity; rw [h]

/-- Claim C9: the snapshot stored by addItem falls back to the full price
    whenever the discounted price of the product evaluates to zero, because
    the JS expression discountedPrice || price treats 0 as falsy; a product
    with discountPercentage 100 has discounted price zero, and a nonzero
    discounted price is snapshot unchanged. -/
theorem C9_snapshot_falls_back_to_price (c : Cart) (p : Product) (q : ℤ)
    (habs : ∀ item ∈ c.items, item.product ≠ p._id) :
    ∃ it, (addItem c p q).items = c.items ++ [it] ∧
      it.discountedPrice =
        (if p.discountedPrice = 0 then p.price else p.discountedPrice) ∧
      Product.discountedPrice { p with discountPercentage := 100 } = 0 := by
  have hfalse : ∀ x ∈ c.items, (fun item => item.product == p._id) x = false :=
    fun x hx => bool_pred_false_of_ne p._id x (habs x hx)
  have h1 : findIdx (fun item => item.product == p._id) c.items = none :=
    findIdx_eq_none _ c.items hfalse
  refine ⟨_, addItem_items_push c p q h1, rfl, ?_⟩
  simp [Product.discountedPrice]

/-- Claim C7: clearCart always succeeds and yields an empty item list, zero
    subtotal, tax, shipping cost and total, no coupon code and a zero coupon
    discount, regardless of the prior state of the cart. -/
theorem C7_clearCart_resets (c : Cart) :
    (clearCart c).items = [] ∧ (clearCart c).subtotal = 0 ∧ (clearCart c).tax = 0 ∧
    (clearCart c).shippingCost = 0 ∧ (clearCart c).total = 0 ∧
    (clearCart c).couponCode = none ∧ (clearCart c).couponDiscount = 0 :=
  ⟨rfl, rfl, rfl, rfl, rfl, rfl, rfl⟩

/-- Claim C6: applying WELCOME10 stores a coupon discount of ten percent of
    the stored subtotal rounded to two decimals, applying FREESHIP stores the
    shipping cost read at the time of application, a value that totals
    recomputation and item mutations never change afterwards, and any other
    code is rejected with 400 before any cart field is mutated. -/
theorem C6_applyCoupon_codes (c : Cart) (code : String)
    (h1 : code ≠ WELCOME10) (h2 : code ≠ FREESHIP) :
    (∃ c1, applyCoupon c WELCOME10 = Except.ok c1 ∧
       c1.couponDiscount = round2 (c.subtotal * (1 / 10)) ∧
       c1.couponCode = some WELCOME10) ∧
    (∃ c2, applyCoupon c FREESHIP = Except.ok c2 ∧
       c2.couponDiscount = c.shippingCost ∧
       c2.couponCode = some FREESHIP) ∧
    applyCoupon c code = Except.error CouponError.invalidCoupon ∧
    (∀ p : Product, ∀ q : ℤ, (addItem c p q).couponDiscount = c.couponDiscount) ∧
    (calculateTotals c).couponDiscount = c.couponDiscount := by
  refine ⟨?_, ?_, ?_, ?_, calculateTotals_couponDiscount c⟩
  · unfold applyCoupon
    rw [if_pos rfl]
    exact ⟨_, rfl, calculateTotals_couponDiscount _, calculateTotals_couponCode _⟩
  · unfold applyCoupon
    rw [if_neg (by decide : ¬ FREESHIP = WELCOME10), if_pos rfl]
    exact ⟨_, rfl, calculateTotals_couponDiscount _, calculateTotals_couponCode _⟩
  · unfold applyCoupon
    rw [if_neg h1, if_neg h2]
  · intro p q
    unfold addItem
    cases findIdx (fun item => item.product == p._id) c.items <;>
      exact calculateTotals_couponDiscount _

theorem calculateTotals_empty (d : Cart) (hi : d.items = []) (hcd : d.couponDiscount = 0) :
    (calculateTotals d).subtotal = 0 ∧ (calculateTotals d).tax = 0 ∧
    (calculateTotals d).shippingCost = 599 / 100 ∧
    (calculateTotals d).total = 599 / 100 := by
  have hsub : round2 (itemsSubtotal d.items) = 0 := by
    rw [hi]
    exact round2_zero
  have htax : round2 (round2 (itemsSubtotal d.items) * TAX_RATE) = 0 := by
    rw [hsub, zero_mul]
    exact round2_zero
  have hship : (if round2 (itemsSubtotal d.items) > SHIPPING_THRESHOLD then (0 : ℚ)
      else BASE_SHIPPING) = 599 / 100 := by
    rw [hsub, if_neg (by norm_num [SHIPPING_THRESHOLD] : ¬ (0 : ℚ) > SHIPPING_THRESHOLD)]
    norm_num [BASE_SHIPPING]
  have htot : round2 (round2 (itemsSubtotal d.items) +
      round2 (round2 (itemsSubtotal d.items) * TAX_RATE) +
      (if round2 (itemsSubtotal d.items) > SHIPPING_THRESHOLD then (0 : ℚ)
        else BASE_SHIPPING) - d.couponDiscount) = 599 / 100 := by
    rw [htax, hship, hsub, hcd]
    rw [show (0 : ℚ) + 0 + 599 / 100 - 0 = BASE_SHIPPING by norm_num [BASE_SHIPPING]]
    rw [round2_base_shipping]
    norm_num [BASE_SHIPPING]
  exact ⟨hsub, htax, hship, htot⟩

/-- Claim C10: removing the only line item of a coupon-free cart, by
    removeItem or by an update of its quantity to zero, leaves an empty cart
    that is charged the base shipping fee, with total 5.99, because the
    totals are recomputed and the empty subtotal of zero does not pass the
    strict free-shipping threshold; clearCart instead leaves an empty cart
    with zero shipping cost and zero total. -/
theorem C10_empty_cart_still_pays_shipping (c : Cart) (it : CartItem)
    (hone : c.items = [it]) (hnoc : c.couponDiscount = 0) :
    (∃ c1, removeItem c it.product = Except.ok c1 ∧ c1.items = [] ∧
       c1.subtotal = 0 ∧ c1.tax = 0 ∧
       c1.shippingCost = 599 / 100 ∧ c1.total = 599 / 100) ∧
    (∃ c2, updateItemQuantity c it.product 0 = Except.ok c2 ∧ c2.items = [] ∧
       c2.shippingCost = 599 / 100 ∧ c2.total = 599 / 100) ∧
    (clearCart c).shippingCost = 0 ∧ (clearCart c).total = 0 := by
  have hfind : findIdx (fun item => item.product == it.product) c.items = some 0 := by
    rw [hone]
    simp [findIdx]
  have hi : c.items.eraseIdx 0 = [] := by
    rw [hone]
    rfl
  obtain ⟨hs, ht, hsh, htt⟩ :=
    calculateTotals_empty { c with items := c.items.eraseIdx 0 } hi hnoc
  refine ⟨?_, ?_, rfl, rfl⟩
  · unfold removeItem
    rw [hfind]
    exact ⟨_, rfl, by rw [calculateTotals_items]; exact hi, hs, ht, hsh, htt⟩
  · unfold updateItemQuantity
    rw [hfind]
    dsimp only
    rw [if_pos (le_refl (0 : ℤ))]
    exact ⟨_, rfl, by rw [calculateTotals_items]; exact hi, hsh, htt⟩

/-- Claim C8: cancelling an order fails, with the order unchanged, exactly
    when its current status is Delivered; from every other status, including
    Cancelled itself, cancelling succeeds and sets the status to Cancelled
    while leaving every other field as it was. -/
theorem C8_cancel_iff_not_delivered (o : Order) :
    (cancelOrder o = Except.error CancelError.cannotCancelDelivered ↔
      o.status = OrderStatus.Delivered) ∧
    (cancelOrder o = Except.ok { o with status := OrderStatus.Cancelled } ↔
      o.status ≠ OrderStatus.Delivered) ∧
    cancelOrder { o with status := OrderStatus.Cancelled } =
      Except.ok { o with status := OrderStatus.Cancelled } := by
  by_cases h : o.status = OrderStatus.Delivered
  · refine ⟨?_, ?_, ?_⟩
    · simp [cancelOrder, h]
    · simp [cancelOrder, h]
    · simp [cancelOrder]
  · refine ⟨?_, ?_, ?_⟩
    · simp [cancelOrder, h]
    · simp [cancelOrder, h]
    · simp [cancelOrder]

/-- A concrete product: price 30, no discount. -/
def sampleProduct : Product :=
  { _id := "p1", name := "Widget", price := 30, discountPercentage := 0, image := "w" }

/-- A concrete product with a full 100 percent discount. -/
def freeProduct : Product :=
  { _id := "p9", name := "Freebie", price := 20, discountPercentage := 100, image := "f" }

/-- The line item that addItem would snapshot from sampleProduct with quantity 2. -/
def sampleItem : CartItem :=
  { product := "p1", name := "Widget", price := 30, discountedPrice := 30,
    quantity := 2, image := "w" }

/-- A fresh empty cart. -/
def emptyCart : Cart :=
  { items := [], subtotal := 0, tax := 0, shippingCost := 0, total := 0,
    couponCode := none, couponDiscount := 0 }

/-- A cart holding only sampleItem, with its recomputed totals. -/
def oneItemCart : Cart :=
  { items := [sampleItem], subtotal := 60, tax := 24 / 5, shippingCost := 0,
    total := 324 / 5, couponCode := none, couponDiscount := 0 }

/-- A product identifier no line item of oneItemCart references. -/
def missingPid : String := "nope"

/-- A coupon code the handler does not recognise. -/
def bogusCode : String := "SAVE99"

theorem C3_witness :
    (addItem (addItem emptyCart sampleProduct 2) sampleProduct 3).items.filter
        (fun item => item.product == sampleProduct._id) =
      [{ product := sampleProduct._id, name := sampleProduct.name,
         price := sampleProduct.price,
         discountedPrice := jsNumOr sampleProduct.discountedPrice sampleProduct.price,
         quantity := 2 + 3, image := sampleProduct.image }] :=
  C3_addItem_merges_with_first_snapshot emptyCart sampleProduct sampleProduct 2 3 rfl
    (by simp [emptyCart])

theorem C4_witness :
    ∃ c2, updateItemQuantity oneItemCart sampleItem.product 0 = Except.ok c2 ∧
      c2.items = (if (0 : ℤ) ≤ 0 then oneItemCart.items.eraseIdx 0
                  else oneItemCart.items.set 0 { sampleItem with quantity := 0 }) ∧
      totalsInvariant c2 ∧
      c2.subtotal = round2 (itemsSubtotal c2.items) :=
  C4_updateItemQuantity_sets_or_deletes oneItemCart sampleItem.product 0 0 sampleItem
    rfl rfl

theorem C5_witness :
    removeItem oneItemCart missingPid = Except.error CartError.itemNotFound ∧
    updateItemQuantity oneItemCart missingPid 1 = Except.error CartError.itemNotFound :=
  C5_absent_product_errors oneItemCart missingPid 1 (by decide)

theorem C6_witness :
    (∃ c1, applyCoupon oneItemCart WELCOME10 = Except.ok c1 ∧
       c1.couponDiscount = round2 (oneItemCart.subtotal * (1 / 10)) ∧
       c1.couponCode = some WELCOME10) ∧
    (∃ c2, applyCoupon oneItemCart FREESHIP = Except.ok c2 ∧
       c2.couponDiscount = oneItemCart.shippingCost ∧
       c2.couponCode = some FREESHIP) ∧
    applyCoupon oneItemCart bogusCode = Except.error CouponError.invalidCoupon ∧
    (∀ p : Product, ∀ q : ℤ,
      (addItem oneItemCart p q).couponDiscount = oneItemCart.couponDiscount) ∧
    (calculateTotals oneItemCart).couponDiscount = oneItemCart.couponDiscount :=
  C6_applyCoupon_codes oneItemCart bogusCode (by decide) (by decide)

theorem C9_witness :
    ∃ it, (addItem emptyCart freeProduct 1).items = emptyCart.items ++ [it] ∧
      it.discountedPrice = (if freeProduct.discountedPrice = 0 then freeProduct.price
        else freeProduct.discountedPrice) ∧
      Product.discountedPrice { freeProduct with discountPercentage := 100 } = 0 :=
  C9_snapshot_falls_back_to_price emptyCart freeProduct 1 (by simp [emptyCart])

theorem C10_witness :
    (∃ c1, removeItem oneItemCart sampleItem.product = Except.ok c1 ∧ c1.items = [] ∧
       c1.subtotal = 0 ∧ c1.tax = 0 ∧
       c1.shippingCost = 599 / 100 ∧ c1.total = 599 / 100) ∧
    (∃ c2, updateItemQuantity oneItemCart sampleItem.product 0 = Except.ok c2 ∧
       c2.items = [] ∧ c2.shippingCost = 599 / 100 ∧ c2.total = 599 / 100) ∧
    (clearCart oneItemCart).shippingCost = 0 ∧ (clearCart oneItemCart).total = 0 :=
  C10_empty_cart_still_pays_shipping oneItemCart sampleItem rfl rfl

end Devliver
